import Mathlib

/-!
Verification of the `gutils` package (bbugyi200/pylibs): a shallow embedding
of `gutils/core.py` and `gutils/result.py`, with theorems settling the
specification's claims about the pid-file guard, directory creation, the
`notify` input validation, the `signal` decorator and the `Result` type.
-/

namespace GUtils

/-! ## Errno constants used by the source (from the `errno` module) -/

def EPERM : Int := 1
def ESRCH : Int := 3
def EEXIST : Int := 17

/-! ## Python `int(str)` parsing

`int(open(PIDFILE, 'r').read())` parses the file content with Python's
`int` constructor: surrounding whitespace is stripped, an optional sign is
allowed, then decimal digits with single underscores permitted between
digits.  Any other content raises `ValueError`. -/

def digitVal (c : Char) : Nat := c.toNat - 48

/-- Parses `digit (underscore? digit)*` continuing an accumulated value,
as Python's `int` does after the first digit. -/
def digitsRest (acc : Nat) : List Char → Option Nat
  | [] => some acc
  | '_' :: c :: rest =>
      if c.isDigit then digitsRest (acc * 10 + digitVal c) rest else none
  | '_' :: [] => none
  | c :: rest =>
      if c.isDigit then digitsRest (acc * 10 + digitVal c) rest else none

/-- Parses a nonempty digit string (underscores allowed between digits). -/
def digitsU : List Char → Option Nat
  | [] => none
  | '_' :: _ => none
  | c :: rest => if c.isDigit then digitsRest (digitVal c) rest else none

/-- Model of Python's `int(s)`: strip whitespace, optional sign, digits.
Returns `none` where Python raises `ValueError`. -/
def pythonInt (s : String) : Option Int :=
  let cs := ((s.data.dropWhile Char.isWhitespace).reverse.dropWhile
      Char.isWhitespace).reverse
  match cs with
  | '+' :: rest => (digitsU rest).map Int.ofNat
  | '-' :: rest => (digitsU rest).map (fun n => -(Int.ofNat n))
  | _ => (digitsU cs).map Int.ofNat

/-! ## The pid-file guard: `create_pidfile`

The file system state relevant to `create_pidfile` is the content of the
single pid file at the computed path: `none` when `os.path.isfile` is
false, `some content` otherwise.  The liveness probe `os.kill(old_pid, 0)`
is abstracted as a function from the probed pid to its outcome, exactly
the three-way split the source's `except` clauses distinguish. -/

/-- Outcome of `os.kill(old_pid, 0)` as the source's handlers see it:
normal return, an `OSError` carrying its errno, or a `ValueError`. -/
inductive KillOutcome where
  | success
  | osError (errno : Int)
  | valueError
  deriving DecidableEq, Repr

/-- Outcome of a `create_pidfile` call: normal return, the
`StillAliveException` carrying the conflicting pid, or an uncaught
`ValueError`. -/
inductive CPResult where
  | success
  | stillAliveException (pid : Int)
  | valueError
  deriving DecidableEq, Repr

/-- Embedding of `create_pidfile` from `gutils/core.py`.

* `fileContent` — `none` if no pid file exists, else its text;
* `kill` — the outcome of `os.kill (pid) 0` for each pid;
* `getpid` — the current process id (`os.getpid()`).

Returns the call's outcome paired with the pid file's content afterwards.
The source parses `int(open(PIDFILE, 'r').read())` *outside* the
`try` block, so a parse failure propagates as an uncaught `ValueError`;
the `except ValueError` handler below the `try` only guards `os.kill`,
and on that path `old_pid != ''` compares an `int` to a string, which is
always true, so it re-raises. -/
def create_pidfile (fileContent : Option String) (kill : Int → KillOutcome)
    (getpid : Nat) : CPResult × Option String :=
  match fileContent with
  | none => (CPResult.success, some (toString getpid))
  | some content =>
    match pythonInt content with
    | none => (CPResult.valueError, some content)
    | some old_pid =>
      match kill old_pid with
      | KillOutcome.osError _ => (CPResult.success, some (toString getpid))
      | KillOutcome.valueError => (CPResult.valueError, some content)
      | KillOutcome.success =>
          (CPResult.stillAliveException old_pid, some content)

/-! ## `create_dir` -/

/-- An `OSError` value, identified by its errno. -/
structure OSErr where
  errno : Int
  deriving DecidableEq, Repr

/-- Embedding of `create_dir` from `gutils/core.py`: `mk` is the outcome
of `os.makedirs(directory)`; the result is what the call raises or
returns.  An `OSError` whose errno is `EEXIST` is swallowed; any other
`OSError` is re-raised unchanged. -/
def create_dir (mk : Except OSErr Unit) : Except OSErr Unit :=
  match mk with
  | Except.ok _ => Except.ok ()
  | Except.error e =>
      if e.errno ≠ EEXIST then Except.error e else Except.ok ()

/-! ## `notify`

The source validates its arguments with two `assert` statements inside a
`try`, converts any `AssertionError` into a `ValueError` with the same
message, and only then builds the `notify-send` command list and starts
the subprocess via `sp.check_call`.  The embedding returns either the
raised error or the command list handed to the subprocess. -/

/-- A raised Python exception, as far as `notify` distinguishes them. -/
inductive PyError where
  | valueError (msg : String)
  | assertionError (msg : String)
  deriving DecidableEq, Repr

/-- The two `assert` statements at the top of `notify`, in source order:
`some` is the `AssertionError` the failing assert raises. -/
def notifyChecks (args : List String) (urgency : Option String) :
    Option PyError :=
  if ¬ args.length > 0 then
    some (PyError.assertionError "No notification message specified.")
  else if ¬ (urgency = none ∨ urgency = some "low" ∨ urgency = some "normal"
      ∨ urgency = some "critical") then
    some (PyError.assertionError
      ("Invalid Urgency: " ++ (match urgency with
        | none => "None"
        | some u => u)))
  else
    none

/-- Embedding of `notify` from `gutils/core.py`.  `scriptname` is the
value `shared.scriptname(inspect.stack())` would supply when `title` is
absent.  `Except.ok cmds` means the subprocess `sp.check_call cmds` is
started; `Except.error` means the call raises before any subprocess. -/
def notify (args : List String) (title : Option String)
    (urgency : Option String) (scriptname : String) :
    Except PyError (List String) :=
  match notifyChecks args urgency with
  | some (PyError.assertionError msg) => Except.error (PyError.valueError msg)
  | some e => Except.error e
  | none =>
    let t := match title with
      | none => scriptname
      | some t => t
    let cmd_list := ["notify-send"] ++ [t] ++
      (match urgency with
        | some u => ["-u", u]
        | none => []) ++ args
    Except.ok cmd_list

/-- Returns `true` iff the call raised a `ValueError`. -/
def isValueError : Except PyError (List String) → Bool
  | Except.error (PyError.valueError _) => true
  | _ => false

/-! ## `signal`

`signal(*signums)` returns the decorator `_signal`; `_signal(handler)`
registers `handler` for every signum via `sig.signal(signum, handler)`
and returns `handler`.  The interpreter's signal table is modelled as a
function from signal numbers to the registered handler, threaded
explicitly. -/

/-- The effect of one `sig.signal(signum, handler)` call on the signal
table. -/
def sigRegister {H : Type} (table : Int → Option H) (signum : Int)
    (handler : H) : Int → Option H :=
  fun n => if n = signum then some handler else table n

/-- Embedding of `signal` from `gutils/core.py`: applying the decorator
`signal signums` to `handler` in signal-table state `table` yields the
updated table and the decorator's return value. -/
def signal {H : Type} (signums : List Int) (handler : H)
    (table : Int → Option H) : (Int → Option H) × H :=
  (signums.foldl (fun t signum => sigRegister t signum handler) table,
    handler)

end GUtils

/-! ## The `Result` type (`gutils/result.py`)

`Ok` and `Err` are two separate classes, each wrapping one payload set at
construction; `Result` is the union (`Union[Ok[_T], Err[_E]]`) of the
two, modelled as a sum type. -/

namespace GUtilsResult

/-- The `Ok` class: wraps a success value. -/
structure Ok (T : Type) where
  _value : T
  deriving DecidableEq, Repr

/-- Accessor `Ok.ok`: returns the wrapped success value. -/
def Ok.ok {T : Type} (o : Ok T) : T := o._value

/-- The `Err` class: wraps a failure value. -/
structure Err (E : Type) where
  _e : E
  deriving DecidableEq, Repr

/-- Accessor `Err.err`: returns the wrapped failure value. -/
def Err.err {E : Type} (x : Err E) : E := x._e

/-- The type alias `Result = Union[Ok[_T], Err[_E]]`. -/
abbrev Result (T E : Type) : Type := Ok T ⊕ Err E

end GUtilsResult

/-! ## Helper lemmas -/

namespace GUtils

theorem digitChar_isDigit (m : Nat) (h : m < 10) :
    (Nat.digitChar m).isDigit = true := by
  interval_cases m <;> decide

theorem toDigitsCore_all_isDigit : ∀ (f n : Nat) (l : List Char),
    l.all Char.isDigit = true →
    (Nat.toDigitsCore 10 f n l).all Char.isDigit = true := by
  intro f
  induction f with
  | zero => intro n l h; simpa [Nat.toDigitsCore] using h
  | succ f ih =>
    intro n l h
    have hd : (Nat.digitChar (n % 10)).isDigit = true :=
      digitChar_isDigit _ (Nat.mod_lt _ (by decide))
    simp only [Nat.toDigitsCore]
    split
    · simp [List.all_cons, hd, h]
    · exact ih _ _ (by simp [List.all_cons, hd, h])

theorem toString_nat_all_isDigit (n : Nat) :
    (toString n).data.all Char.isDigit = true := by
  show (Nat.toDigits 10 n).all Char.isDigit = true
  exact toDigitsCore_all_isDigit _ _ _ rfl

end GUtils

/-! ## Claims about `create_pidfile` -/

namespace GUtils

/-- C1 counterexample: with the pid file holding `"123"` and the probe
failing with `OSError EPERM` (permission denied), `create_pidfile` does
NOT raise `StillAliveException 123` and does NOT leave the file alone —
it returns normally and overwrites the file with the current pid, because
`except OSError: pass` catches permission errors too. -/
theorem create_pidfile_perm_denied_counterexample :
    create_pidfile (some "123") (fun _ => KillOutcome.osError EPERM) 456
      = (CPResult.success, some "456") ∧
    create_pidfile (some "123") (fun _ => KillOutcome.osError EPERM) 456
      ≠ (CPResult.stillAliveException 123, some "123") := by
  decide

/-- C1 (amended): if the pid file parses to a pid and the liveness probe
fails with a permission error (`OSError EPERM`), `create_pidfile` treats
the process as absent: it succeeds and overwrites the file with the
current process's pid. -/
theorem create_pidfile_perm_denied_proceeds :
    ∀ (content : String) (pid : Int) (kill : Int → KillOutcome) (getpid : Nat),
    pythonInt content = some pid → kill pid = KillOutcome.osError EPERM →
    create_pidfile (some content) kill getpid
      = (CPResult.success, some (toString getpid)) := by
  intro content pid kill getpid hp hk
  simp [create_pidfile, hp, hk]

/-- C1 witness: the amended statement at pid file `"123"`, an
always-EPERM probe, and current pid 456. -/
theorem create_pidfile_perm_denied_proceeds_witness :
    create_pidfile (some "123") (fun _ => KillOutcome.osError EPERM) 456
      = (CPResult.success, some (toString 456)) :=
  create_pidfile_perm_denied_proceeds "123" 123
    (fun _ => KillOutcome.osError EPERM) 456 (by decide) rfl

/-- C2 counterexample: with the pid file holding the empty string,
`create_pidfile` does NOT succeed and does NOT overwrite the file — the
`int` parse raises `ValueError` before the `try` block, and the error
propagates. -/
theorem create_pidfile_malformed_counterexample :
    create_pidfile (some "") (fun _ => KillOutcome.success) 456
      = (CPResult.valueError, some "") ∧
    create_pidfile (some "") (fun _ => KillOutcome.success) 456
      ≠ (CPResult.success, some "456") := by
  decide

/-- C2 (amended): for every pid file whose content fails to parse as an
integer (empty or non-numeric), `create_pidfile` raises `ValueError`
(the parse error propagates uncaught) and the file is left unmodified. -/
theorem create_pidfile_malformed_raises :
    ∀ (content : String) (kill : Int → KillOutcome) (getpid : Nat),
    pythonInt content = none →
    create_pidfile (some content) kill getpid
      = (CPResult.valueError, some content) := by
  intro content kill getpid hp
  simp [create_pidfile, hp]

/-- C2 witness: the amended statement at an empty pid file. -/
theorem create_pidfile_malformed_raises_witness :
    create_pidfile (some "") (fun _ => KillOutcome.success) 789
      = (CPResult.valueError, some "") :=
  create_pidfile_malformed_raises "" (fun _ => KillOutcome.success) 789
    (by decide)

/-- C3: if the pid file parses to a pid and the liveness probe succeeds
(the process exists and is signalable), `create_pidfile` raises
`StillAliveException` carrying exactly the pid read from the file, and
the file's content is unchanged. -/
theorem create_pidfile_live_conflict :
    ∀ (content : String) (pid : Int) (kill : Int → KillOutcome) (getpid : Nat),
    pythonInt content = some pid → kill pid = KillOutcome.success →
    create_pidfile (some content) kill getpid
      = (CPResult.stillAliveException pid, some content) := by
  intro content pid kill getpid hp hk
  simp [create_pidfile, hp, hk]

/-- C3 witness: the live-conflict statement at pid file `"42"`, an
always-succeeding probe, and current pid 7. -/
theorem create_pidfile_live_conflict_witness :
    create_pidfile (some "42") (fun _ => KillOutcome.success) 7
      = (CPResult.stillAliveException 42, some "42") :=
  create_pidfile_live_conflict "42" 42 (fun _ => KillOutcome.success) 7
    (by decide) rfl

/-- C4: when no pid file exists, `create_pidfile` succeeds and the file
afterwards contains exactly the decimal rendering of the caller's pid —
a string all of whose characters are decimal digits, with no trailing
structure. -/
theorem create_pidfile_fresh_start :
    ∀ (kill : Int → KillOutcome) (getpid : Nat),
    create_pidfile none kill getpid
      = (CPResult.success, some (toString getpid)) ∧
    (toString getpid).data.all Char.isDigit = true := by
  intro kill getpid
  exact ⟨rfl, toString_nat_all_isDigit getpid⟩

/-- C5: if the pid file parses to a pid and the liveness probe reports
"no such process" (`OSError ESRCH`), `create_pidfile` succeeds and fully
replaces the file's content with the current process's pid. -/
theorem create_pidfile_stale_pid :
    ∀ (content : String) (pid : Int) (kill : Int → KillOutcome) (getpid : Nat),
    pythonInt content = some pid → kill pid = KillOutcome.osError ESRCH →
    create_pidfile (some content) kill getpid
      = (CPResult.success, some (toString getpid)) := by
  intro content pid kill getpid hp hk
  simp [create_pidfile, hp, hk]

/-- C5 witness: the stale-pid statement at pid file `"99"`, an
always-ESRCH probe, and current pid 100. -/
theorem create_pidfile_stale_pid_witness :
    create_pidfile (some "99") (fun _ => KillOutcome.osError ESRCH) 100
      = (CPResult.success, some (toString 100)) :=
  create_pidfile_stale_pid "99" 99 (fun _ => KillOutcome.osError ESRCH) 100
    (by decide) rfl

/-- C6: `create_dir` swallows exactly the "already exists" failure: a
creation failure with errno `EEXIST` returns normally, and a creation
failure with any other errno is re-raised as the very same `OSError`
value, unchanged and unwrapped. -/
theorem create_dir_error_policy :
    (∀ e : OSErr, e.errno = EEXIST → create_dir (Except.error e) = Except.ok ())
    ∧ (∀ e : OSErr, e.errno ≠ EEXIST →
        create_dir (Except.error e) = Except.error e) := by
  constructor
  · intro e he
    simp [create_dir, he]
  · intro e he
    simp [create_dir, he]

/-- C6 witness: `create_dir` at an `EEXIST` failure and at an `EACCES`
(errno 13) failure. -/
theorem create_dir_error_policy_witness :
    create_dir (Except.error ⟨EEXIST⟩) = Except.ok () ∧
    create_dir (Except.error ⟨13⟩) = Except.error ⟨13⟩ :=
  ⟨create_dir_error_policy.1 ⟨EEXIST⟩ rfl,
   create_dir_error_policy.2 ⟨13⟩ (by decide)⟩

/-- C9: `notify` validates its inputs before building the command list:
with zero message arguments, or with an urgency outside
`{None, low, normal, critical}`, it raises `ValueError` (the
`AssertionError` from the failing assert is converted), and no
`notify-send` subprocess is started (the embedding returns no command
list on the error path). -/
theorem notify_invalid_input_raises_value_error :
    ∀ (args : List String) (title urgency : Option String)
      (scriptname : String),
    (args = [] ∨ (urgency ≠ none ∧ urgency ≠ some "low" ∧
      urgency ≠ some "normal" ∧ urgency ≠ some "critical")) →
    isValueError (notify args title urgency scriptname) = true := by
  intro args title urgency scriptname h
  rcases h with h | ⟨h1, h2, h3, h4⟩
  · subst h
    simp [notify, notifyChecks, isValueError]
  · have hcond : ¬ (urgency = none ∨ urgency = some "low" ∨
        urgency = some "normal" ∨ urgency = some "critical") := by
      rintro (h | h | h | h)
      exacts [h1 h, h2 h, h3 h, h4 h]
    rcases args with _ | ⟨a, as⟩
    · simp [notify, notifyChecks, isValueError]
    · simp [notify, notifyChecks, isValueError, hcond]

/-- C9 witness: `notify` with no message, and with an invalid urgency. -/
theorem notify_invalid_input_raises_value_error_witness :
    isValueError (notify [] none none "script") = true ∧
    isValueError (notify ["msg"] none (some "urgent") "script") = true :=
  ⟨notify_invalid_input_raises_value_error [] none none "script" (Or.inl rfl),
   notify_invalid_input_raises_value_error ["msg"] none (some "urgent")
     "script" (Or.inr ⟨by decide, by decide, by decide, by decide⟩)⟩

/-- C10: the `signal` decorator returns its handler argument unchanged:
for every list of signal numbers, handler and signal-table state, the
value `signal(*signums)(handler)` returns is `handler` itself. -/
theorem signal_returns_handler :
    ∀ (H : Type) (signums : List Int) (handler : H)
      (table : Int → Option H),
    (signal signums handler table).2 = handler :=
  fun _ _ _ _ => rfl

end GUtils

/-! ## Claims about `Result` -/

namespace GUtilsResult

/-- C7: the success accessor on `Ok(x)` returns `x`, and the error
accessor on `Err(e)` returns `e`, for every `x` and `e`. -/
theorem ok_err_round_trip :
    ∀ (T E : Type) (x : T) (e : E),
    (Ok.mk x).ok = x ∧ (Err.mk e).err = e :=
  fun _ _ _ _ => ⟨rfl, rfl⟩

/-- C8: every `Result` value is exactly one of the two variants: either
it is an `Ok` and not an `Err`, or it is an `Err` and not an `Ok`; there
is no default/empty state and no value that is both.  Immutability holds
because the embedding is a pure value: the only operations, the
accessors, return the payload without producing a modified `Result`. -/
theorem result_exactly_one_variant :
    ∀ (T E : Type) (r : Result T E),
    (r.isLeft = true ∧ r.isRight = false) ∨
    (r.isRight = true ∧ r.isLeft = false) := by
  intro T E r
  cases r with
  | inl o => exact Or.inl ⟨rfl, rfl⟩
  | inr x => exact Or.inr ⟨rfl, rfl⟩

end GUtilsResult
